import Mathlib

/-!
Verification of the deep-zoom tile pyramid generator
(`src/deepzoom_generator.py`, class `DeepZoomGenerator`).

The Python code is shallowly embedded below: pure arithmetic methods become
Lean functions on `Nat`, and the effectful build (`generate_tiles`,
`generate_level`, `save_tile`, `generate_dzi_descriptor`) becomes a function
producing the ordered list of externally visible effects (`Event`) together
with an optional error, mirroring exception propagation.  Filesystem
availability is abstracted by a boolean `writable`: when it is `false`, the
first directory creation (`os.makedirs`) raises `OSError`, as happens on a
read-only output root.
-/

/-- Ceiling division on naturals: `math.ceil(a / b)` for `b > 0`,
computed as `(a + b - 1) / b`. -/
def ceil_div (a b : Nat) : Nat := (a + b - 1) / b

/-- Fuelled ceiling base-2 logarithm: repeatedly ceiling-halve until the
argument drops to 1.  `clog2_fuel fuel n` computes `ceil(log2 n)` for
`1 ≤ n ≤ fuel + 1`. -/
def clog2_fuel : Nat → Nat → Nat
  | 0, _ => 0
  | fuel + 1, n => if n ≤ 1 then 0 else clog2_fuel fuel (ceil_div n 2) + 1

/-- Exact-arithmetic reading of Python `math.ceil(math.log2 n)` for `n ≥ 1`:
the least `k` with `n ≤ 2 ^ k` (proved below in `le_pow_clog2` / `clog2_min`). -/
def clog2 (n : Nat) : Nat := clog2_fuel n n

/-- A raster value.  `original` is the full-resolution source image opened by
`Image.open` in `__init__`; `resized w h` is a fresh raster returned by
`PIL.Image.resize` (which never mutates its receiver). -/
inductive Raster where
  | original
  | resized (width height : Nat)
deriving DecidableEq

/-- The five values interpolated into the DZI XML descriptor by
`generate_dzi_descriptor` (`Format`, `Overlap`, `TileSize`, `Size Width`,
`Size Height`). -/
structure DziDescriptor where
  format : String
  overlap : Nat
  tileSize : Nat
  width : Nat
  height : Nat
deriving DecidableEq

/-- Externally visible effects of the build, in program order. -/
inductive Event where
  /-- `self.img.resize((width, height), LANCZOS)` — records which raster was
  resampled and to which target dimensions. -/
  | resize (src : Raster) (width height : Nat)
  /-- the per-level progress print of `generate_level`. -/
  | reportLevel (level width height cols rows : Nat)
  /-- `os.makedirs(level_dir, exist_ok=True)`. -/
  | mkdirs (path : String)
  /-- `tile.save(tile_path, ...)` — also records the tile's coordinates. -/
  | saveTile (path : String) (level col row : Nat)
  /-- writing the `.dzi` sidecar file. -/
  | writeDescriptor (path : String) (d : DziDescriptor)
deriving DecidableEq

/-- Errors the build can surface.  `mathDomainError` is the `ValueError`
raised by `math.log2` on a non-positive argument; `osError` is the `OSError`
raised by `os.makedirs` on an unwritable output root.  The last two
constructors are the dedicated error classes named by the specification
(`InvalidDimensionsError`, `OutputUnavailableError`); they are included so
that statements about them can be expressed — the code defines and raises
neither. -/
inductive BuildError where
  | mathDomainError
  | osError
  | invalidDimensions
  | outputUnavailable
deriving DecidableEq

/-- State of a `DeepZoomGenerator` instance as set up by `__init__`. -/
structure DeepZoomGenerator where
  image_path : String
  output_dir : String
  tile_size : Nat
  overlap : Nat
  image_format : String
  /-- `self.img = Image.open(image_path)` — the source raster. -/
  img : Raster
  /-- `self.width, self.height = self.img.size` -/
  width : Nat
  height : Nat

/-- `__init__`: stores the configuration and opens the source image whose size
is `(width, height)`.  No validation of any kind is performed. -/
def DeepZoomGenerator.init (image_path output_dir : String)
    (tile_size overlap : Nat) (image_format : String)
    (width height : Nat) : DeepZoomGenerator :=
  { image_path := image_path, output_dir := output_dir, tile_size := tile_size,
    overlap := overlap, image_format := image_format,
    img := Raster.original, width := width, height := height }

/-- `get_num_levels`: `math.ceil(math.log2(max_dimension)) + 1`.
`math.log2` raises `ValueError` on a non-positive argument, so the result is
`none` when `max(width, height) = 0` (dimensions are naturals, so `≤ 0`
means `= 0`). -/
def DeepZoomGenerator.get_num_levels (self : DeepZoomGenerator) : Option Nat :=
  let max_dimension := max self.width self.height
  if max_dimension = 0 then none
  else some (clog2 max_dimension + 1)

/-- `get_scale_dimensions(level)`:
`scale = 2 ** (max_level - level)`, `width = ceil(self.width / scale)`,
`height = ceil(self.height / scale)`.  The exponent is natural subtraction,
used only with `level ≤ max_level` as in the source; the `none` case
propagates the `ValueError` of `get_num_levels`. -/
def DeepZoomGenerator.get_scale_dimensions (self : DeepZoomGenerator)
    (level : Nat) : Option (Nat × Nat) :=
  match self.get_num_levels with
  | none => none
  | some n =>
    let max_level := n - 1
    let scale := 2 ^ (max_level - level)
    some (ceil_div self.width scale, ceil_div self.height scale)

/-- Crop rectangle of a tile, as computed by `save_tile`.  Coordinates are
integers because `x - overlap` may be negative before clamping. -/
structure Box where
  x1 : Int
  y1 : Int
  x2 : Int
  y2 : Int
deriving DecidableEq

/-- Crop-box arithmetic of `save_tile`:
`x = col * tile_size`, `y = row * tile_size`,
`x1 = max(0, x - overlap)`, `y1 = max(0, y - overlap)`,
`x2 = min(level_width, x + tile_size + overlap)`,
`y2 = min(level_height, y + tile_size + overlap)`. -/
def save_tile_box (tile_size overlap level_width level_height col row : Nat) :
    Box :=
  let x : Int := (col : Int) * (tile_size : Int)
  let y : Int := (row : Int) * (tile_size : Int)
  { x1 := max 0 (x - (overlap : Int))
    y1 := max 0 (y - (overlap : Int))
    x2 := min (level_width : Int) (x + (tile_size : Int) + (overlap : Int))
    y2 := min (level_height : Int) (y + (tile_size : Int) + (overlap : Int)) }

/-- Tile file path built by `save_tile`:
`os.path.join(output_dir, str(level), f"{col}_{row}.{format}")`, with `/` as
the path separator. -/
def tile_path (output_dir : String) (level col row : Nat)
    (image_format : String) : String :=
  output_dir ++ r"/" ++ Nat.repr level ++ r"/" ++ Nat.repr col ++ r"_" ++
    Nat.repr row ++ r"." ++ image_format

/-- The `(col, row)` iteration grid of `generate_level`
(`for col in range(cols): for row in range(rows): ...`). -/
def grid_pairs (cols rows : Nat) : List (Nat × Nat) :=
  (List.range cols).flatMap fun col =>
    (List.range rows).map fun row => (col, row)

/-- The sequence of `save_tile` effects emitted by `generate_level`'s nested
loops for a level raster of size `(lw, lh)`. -/
def DeepZoomGenerator.save_tile_events (self : DeepZoomGenerator)
    (level lw lh : Nat) : List Event :=
  (List.range (ceil_div lw self.tile_size)).flatMap fun col =>
    (List.range (ceil_div lh self.tile_size)).map fun row =>
      Event.saveTile (tile_path self.output_dir level col row self.image_format)
        level col row

/-- `generate_level(level)`: compute the level dimensions, resample the
original raster (`self.img`), report progress, create the level directory,
then save every tile of the `cols × rows` grid.  When the output root is not
writable, `os.makedirs` raises `OSError`: the resize and the progress report
have already happened, no tile is written.  Scope note: the resize step is
modelled as always succeeding; PIL raises `ValueError` when a target
dimension is 0, a path this embedding does not model and which is unreachable
for sources with positive dimensions, whose level dimensions are always at
least 1 (proved in `claim_C10_safety`). -/
def DeepZoomGenerator.generate_level_run (self : DeepZoomGenerator)
    (writable : Bool) (level : Nat) : List Event × Option BuildError :=
  match self.get_scale_dimensions level with
  | none => ([], some BuildError.mathDomainError)
  | some (lw, lh) =>
    let cols := ceil_div lw self.tile_size
    let rows := ceil_div lh self.tile_size
    let pre := [Event.resize self.img lw lh,
                Event.reportLevel level lw lh cols rows]
    if writable then
      (pre ++ Event.mkdirs (self.output_dir ++ r"/" ++ Nat.repr level) ::
        self.save_tile_events level lw lh, none)
    else
      (pre, some BuildError.osError)

/-- The `for level in range(num_levels)` loop body of `generate_tiles`:
run levels in order, aborting on the first error. -/
def DeepZoomGenerator.generate_tiles_loop (self : DeepZoomGenerator)
    (writable : Bool) : List Nat → List Event × Option BuildError
  | [] => ([], none)
  | level :: rest =>
    match self.generate_level_run writable level with
    | (tr, none) =>
      match self.generate_tiles_loop writable rest with
      | (tr2, e) => (tr ++ tr2, e)
    | (tr, some e) => (tr, some e)

/-- The record of values interpolated into the DZI XML by
`generate_dzi_descriptor`. -/
def DeepZoomGenerator.dzi_record (self : DeepZoomGenerator) : DziDescriptor :=
  { format := self.image_format, overlap := self.overlap,
    tileSize := self.tile_size, width := self.width, height := self.height }

/-- Path of the descriptor:
`os.path.join(os.path.dirname(output_dir), os.path.basename(output_dir) + '.dzi')`,
which for a root path without a trailing separator is `output_dir ++ ".dzi"`. -/
def dzi_path (output_dir : String) : String := output_dir ++ r".dzi"

/-- `generate_dzi_descriptor`: serialize the descriptor record to the sidecar
`.dzi` file. -/
def DeepZoomGenerator.generate_dzi_descriptor (self : DeepZoomGenerator) :
    Event :=
  Event.writeDescriptor (dzi_path self.output_dir) self.dzi_record

/-- `generate_tiles`: compute the level count, generate every level in
increasing order, then write the DZI descriptor.  A `ValueError` from
`get_num_levels` or any per-level error propagates and aborts the build. -/
def DeepZoomGenerator.generate_tiles (self : DeepZoomGenerator)
    (writable : Bool) : List Event × Option BuildError :=
  match self.get_num_levels with
  | none => ([], some BuildError.mathDomainError)
  | some num_levels =>
    match self.generate_tiles_loop writable (List.range num_levels) with
    | (tr, none) => (tr ++ [self.generate_dzi_descriptor], none)
    | (tr, some e) => (tr, some e)

/-- A tile where no clamping applies in `save_tile`: the overlap-extended box
already lies inside the level raster on all four sides. -/
def interior_tile (tile_size overlap level_width level_height col row : Nat) :
    Prop :=
  overlap ≤ col * tile_size ∧
  col * tile_size + tile_size + overlap ≤ level_width ∧
  overlap ≤ row * tile_size ∧
  row * tile_size + tile_size + overlap ≤ level_height

instance (ts ov lw lh c r : Nat) : Decidable (interior_tile ts ov lw lh c r) := by
  unfold interior_tile; infer_instance

/-- Discriminator for resize effects. -/
def Event.isResize : Event → Bool
  | Event.resize _ _ _ => true
  | _ => false

/-- Sample generator for a 16000×16000 source with the default tile geometry. -/
def sampleBig : DeepZoomGenerator :=
  DeepZoomGenerator.init (r"source.png") (r"tiles/pyramid") 256 1 (r"jpg")
    16000 16000

/-- Sample generator for the spec's 1000×600 scenario (`tileSize = 256`,
`overlap = 1`). -/
def sampleScene : DeepZoomGenerator :=
  DeepZoomGenerator.init (r"scene.png") (r"tiles/scene") 256 1 (r"jpg")
    1000 600

/-- Sample generator for a 255×1 source. -/
def sampleWide : DeepZoomGenerator :=
  DeepZoomGenerator.init (r"wide.png") (r"tiles/wide") 256 1 (r"jpg") 255 1

/-- Sample generator for a 1×1 source. -/
def sampleTiny : DeepZoomGenerator :=
  DeepZoomGenerator.init (r"tiny.png") (r"tiles/tiny") 256 1 (r"jpg") 1 1

/-- Sample generator for a degenerate 0×0 source. -/
def sampleZero : DeepZoomGenerator :=
  DeepZoomGenerator.init (r"zero.png") (r"tiles/zero") 256 1 (r"jpg") 0 0

/-- Equations for the crop-box fields, unfolded from `save_tile_box`. -/
theorem save_tile_box_x1 (ts ov lw lh c r : Nat) :
    (save_tile_box ts ov lw lh c r).x1 =
      max 0 ((c : Int) * (ts : Int) - (ov : Int)) := rfl

theorem save_tile_box_y1 (ts ov lw lh c r : Nat) :
    (save_tile_box ts ov lw lh c r).y1 =
      max 0 ((r : Int) * (ts : Int) - (ov : Int)) := rfl

theorem save_tile_box_x2 (ts ov lw lh c r : Nat) :
    (save_tile_box ts ov lw lh c r).x2 =
      min (lw : Int) ((c : Int) * (ts : Int) + (ts : Int) + (ov : Int)) := rfl

theorem save_tile_box_y2 (ts ov lw lh c r : Nat) :
    (save_tile_box ts ov lw lh c r).y2 =
      min (lh : Int) ((r : Int) * (ts : Int) + (ts : Int) + (ov : Int)) := rfl

/-! ### Arithmetic facts about `ceil_div` and `clog2` -/

theorem ceil_div_le_iff (a c : Nat) {b : Nat} (hb : 0 < b) :
    ceil_div a b ≤ c ↔ a ≤ c * b := by
  unfold ceil_div
  rw [Nat.div_le_iff_le_mul_add_pred hb, Nat.mul_comm c b]
  omega

theorem le_ceil_div_mul (a : Nat) {b : Nat} (hb : 0 < b) :
    a ≤ ceil_div a b * b :=
  (ceil_div_le_iff a _ hb).mp le_rfl

theorem ceil_div_anti (a : Nat) {b1 b2 : Nat} (hb1 : 0 < b1) (h : b1 ≤ b2) :
    ceil_div a b2 ≤ ceil_div a b1 := by
  have hb2 : 0 < b2 := lt_of_lt_of_le hb1 h
  rw [ceil_div_le_iff a _ hb2]
  exact le_trans (le_ceil_div_mul a hb1) (Nat.mul_le_mul_left _ h)

theorem ceil_div_pos {a b : Nat} (ha : 0 < a) (hb : 0 < b) :
    0 < ceil_div a b := by
  by_contra hc
  have h0 : ceil_div a b ≤ 0 := by omega
  have := (ceil_div_le_iff a 0 hb).mp h0
  omega

theorem ceil_div_one (a : Nat) : ceil_div a 1 = a := by
  unfold ceil_div; omega

theorem mul_lt_of_lt_ceil_div {a b c : Nat} (hb : 0 < b)
    (h : c < ceil_div a b) : c * b < a := by
  by_contra hc
  have : ceil_div a b ≤ c := (ceil_div_le_iff a c hb).mpr (by omega)
  omega

theorem clog2_fuel_le_pow :
    ∀ fuel n, 1 ≤ n → n ≤ fuel + 1 → n ≤ 2 ^ clog2_fuel fuel n := by
  intro fuel
  induction fuel with
  | zero => intro n h1 h2; simpa [clog2_fuel] using (by omega : n ≤ 1)
  | succ fuel ih =>
    intro n h1 h2
    by_cases hn : n ≤ 1
    · simp [clog2_fuel, hn]
    · have hm1 : 1 ≤ ceil_div n 2 := by unfold ceil_div; omega
      have hm2 : ceil_div n 2 ≤ fuel + 1 := by unfold ceil_div; omega
      have hrec := ih (ceil_div n 2) hm1 hm2
      have hdbl : n ≤ 2 * ceil_div n 2 := by unfold ceil_div; omega
      simp only [clog2_fuel, hn, if_false, pow_succ]
      omega

theorem clog2_fuel_min :
    ∀ fuel n k, n ≤ 2 ^ k → clog2_fuel fuel n ≤ k := by
  intro fuel
  induction fuel with
  | zero => intro n k _; simp [clog2_fuel]
  | succ fuel ih =>
    intro n k hk
    by_cases hn : n ≤ 1
    · simp [clog2_fuel, hn]
    · have hk0 : k ≠ 0 := by
        intro h0; rw [h0] at hk; simp at hk; omega
      obtain ⟨j, rfl⟩ : ∃ j, k = j + 1 := ⟨k - 1, by omega⟩
      have hpow : (2 : Nat) ^ (j + 1) = 2 * 2 ^ j := by ring
      have hmj : ceil_div n 2 ≤ 2 ^ j := by
        unfold ceil_div; rw [hpow] at hk; omega
      have := ih (ceil_div n 2) j hmj
      simp only [clog2_fuel, hn, if_false]
      omega

theorem le_pow_clog2 {n : Nat} (h : 1 ≤ n) : n ≤ 2 ^ clog2 n :=
  clog2_fuel_le_pow n n h (by omega)

theorem clog2_min {n k : Nat} (h : n ≤ 2 ^ k) : clog2 n ≤ k :=
  clog2_fuel_min n n k h

/-! ### The tile grid: coverage, uniqueness, and the emitted save events -/

theorem count_of_nodup {α : Type} [DecidableEq α] {l : List α} (h : l.Nodup)
    (a : α) : l.count a = if a ∈ l then 1 else 0 := by
  by_cases ha : a ∈ l
  · simp [ha, List.count_eq_one_of_mem h ha]
  · simp [ha, List.count_eq_zero.mpr ha]

theorem mem_grid_pairs {cols rows : Nat} {p : Nat × Nat} :
    p ∈ grid_pairs cols rows ↔ p.1 < cols ∧ p.2 < rows := by
  unfold grid_pairs
  simp only [List.mem_flatMap, List.mem_map, List.mem_range]
  constructor
  · rintro ⟨col, hcol, row, hrow, rfl⟩; exact ⟨hcol, hrow⟩
  · rintro ⟨h1, h2⟩; exact ⟨p.1, h1, p.2, h2, rfl⟩

theorem grid_pairs_succ (cols rows : Nat) :
    grid_pairs (cols + 1) rows =
      grid_pairs cols rows ++ (List.range rows).map fun row => (cols, row) := by
  unfold grid_pairs
  rw [List.range_succ, List.flatMap_append]
  simp

theorem nodup_grid_pairs (cols rows : Nat) : (grid_pairs cols rows).Nodup := by
  induction cols with
  | zero => simp [grid_pairs]
  | succ cols ih =>
    rw [grid_pairs_succ]
    refine List.Nodup.append ih ?_ ?_
    · exact (List.nodup_range rows).map fun a b h => congrArg Prod.snd h
    · intro p hp hp2
      have h1 : p.1 < cols := (mem_grid_pairs.mp hp).1
      obtain ⟨row, _, rfl⟩ := List.mem_map.mp hp2
      omega

theorem save_tile_events_eq (g : DeepZoomGenerator) (level lw lh : Nat) :
    g.save_tile_events level lw lh =
      (grid_pairs (ceil_div lw g.tile_size) (ceil_div lh g.tile_size)).map
        fun p => Event.saveTile
          (tile_path g.output_dir level p.1 p.2 g.image_format) level p.1 p.2 := by
  unfold DeepZoomGenerator.save_tile_events grid_pairs
  rw [List.map_flatMap]
  simp only [List.map_map]
  rfl

theorem save_tile_event_injective (g : DeepZoomGenerator) (level : Nat) :
    Function.Injective fun p : Nat × Nat =>
      Event.saveTile (tile_path g.output_dir level p.1 p.2 g.image_format)
        level p.1 p.2 := by
  intro p q h
  simp only [Event.saveTile.injEq] at h
  exact Prod.ext h.2.2.1 h.2.2.2

theorem count_save_tile_events (g : DeepZoomGenerator) (level lw lh col row : Nat) :
    (g.save_tile_events level lw lh).count
      (Event.saveTile (tile_path g.output_dir level col row g.image_format)
        level col row) =
      if col < ceil_div lw g.tile_size ∧ row < ceil_div lh g.tile_size
      then 1 else 0 := by
  have hinj := save_tile_event_injective g level
  have hmem : (Event.saveTile
        (tile_path g.output_dir level col row g.image_format) level col row ∈
      (grid_pairs (ceil_div lw g.tile_size) (ceil_div lh g.tile_size)).map
        fun p : Nat × Nat => Event.saveTile
          (tile_path g.output_dir level p.1 p.2 g.image_format) level p.1 p.2) ↔
      (col < ceil_div lw g.tile_size ∧ row < ceil_div lh g.tile_size) := by
    rw [show (Event.saveTile
          (tile_path g.output_dir level col row g.image_format) level col row) =
        (fun p : Nat × Nat => Event.saveTile
          (tile_path g.output_dir level p.1 p.2 g.image_format) level p.1 p.2)
          (col, row) from rfl,
      List.mem_map_of_injective hinj, mem_grid_pairs]
  rw [save_tile_events_eq, count_of_nodup ((nodup_grid_pairs _ _).map hinj)]
  simp [hmem]

theorem mem_save_tile_events {g : DeepZoomGenerator} {level lw lh : Nat}
    {e : Event} (he : e ∈ g.save_tile_events level lw lh) :
    ∃ col row, col < ceil_div lw g.tile_size ∧ row < ceil_div lh g.tile_size ∧
      e = Event.saveTile (tile_path g.output_dir level col row g.image_format)
        level col row := by
  rw [save_tile_events_eq] at he
  obtain ⟨p, hp, rfl⟩ := List.mem_map.mp he
  exact ⟨p.1, p.2, (mem_grid_pairs.mp hp).1, (mem_grid_pairs.mp hp).2, rfl⟩

/-! ### Structure of the build trace -/

theorem get_num_levels_eq (g : DeepZoomGenerator)
    (h : 0 < max g.width g.height) :
    g.get_num_levels = some (clog2 (max g.width g.height) + 1) := by
  have hne : max g.width g.height ≠ 0 := Nat.pos_iff_ne_zero.mp h
  simp [DeepZoomGenerator.get_num_levels, hne]

theorem get_scale_dimensions_eq (g : DeepZoomGenerator)
    (h : 0 < max g.width g.height) (level : Nat) :
    g.get_scale_dimensions level =
      some (ceil_div g.width (2 ^ (clog2 (max g.width g.height) - level)),
            ceil_div g.height (2 ^ (clog2 (max g.width g.height) - level))) := by
  unfold DeepZoomGenerator.get_scale_dimensions
  rw [get_num_levels_eq g h]
  simp

theorem generate_level_run_true (g : DeepZoomGenerator) (level lw lh : Nat)
    (hd : g.get_scale_dimensions level = some (lw, lh)) :
    g.generate_level_run true level =
      (Event.resize g.img lw lh ::
       Event.reportLevel level lw lh (ceil_div lw g.tile_size)
         (ceil_div lh g.tile_size) ::
       Event.mkdirs (g.output_dir ++ r"/" ++ Nat.repr level) ::
       g.save_tile_events level lw lh, none) := by
  unfold DeepZoomGenerator.generate_level_run
  rw [hd]
  simp

theorem generate_level_run_false (g : DeepZoomGenerator) (level lw lh : Nat)
    (hd : g.get_scale_dimensions level = some (lw, lh)) :
    g.generate_level_run false level =
      ([Event.resize g.img lw lh,
        Event.reportLevel level lw lh (ceil_div lw g.tile_size)
          (ceil_div lh g.tile_size)], some BuildError.osError) := by
  unfold DeepZoomGenerator.generate_level_run
  rw [hd]
  simp

theorem generate_level_run_err (g : DeepZoomGenerator) (w : Bool)
    (level : Nat) (e : BuildError)
    (he : (g.generate_level_run w level).2 = some e) :
    e = BuildError.mathDomainError ∨ e = BuildError.osError := by
  unfold DeepZoomGenerator.generate_level_run at he
  cases hd : g.get_scale_dimensions level with
  | none => rw [hd] at he; simp at he; exact Or.inl he.symm
  | some p =>
    obtain ⟨lw, lh⟩ := p
    rw [hd] at he
    cases w with
    | true => simp at he
    | false => simp at he; exact Or.inr he.symm

theorem generate_tiles_loop_ok (g : DeepZoomGenerator)
    (h : 0 < max g.width g.height) (ls : List Nat) :
    g.generate_tiles_loop true ls =
      (ls.flatMap fun l => (g.generate_level_run true l).1, none) := by
  induction ls with
  | nil => simp [DeepZoomGenerator.generate_tiles_loop]
  | cons l rest ih =>
    have hl := generate_level_run_true g l _ _ (get_scale_dimensions_eq g h l)
    unfold DeepZoomGenerator.generate_tiles_loop
    rw [hl, ih]
    simp [hl]

theorem generate_tiles_loop_err (g : DeepZoomGenerator) (w : Bool) :
    ∀ (ls : List Nat) (e : BuildError),
      (g.generate_tiles_loop w ls).2 = some e →
      e = BuildError.mathDomainError ∨ e = BuildError.osError := by
  intro ls
  induction ls with
  | nil => intro e he; simp [DeepZoomGenerator.generate_tiles_loop] at he
  | cons l rest ih =>
    intro e he
    unfold DeepZoomGenerator.generate_tiles_loop at he
    cases hl : g.generate_level_run w l with
    | mk tr oe =>
      cases oe with
      | none =>
        rw [hl] at he
        simp at he
        exact ih e he
      | some e2 =>
        rw [hl] at he
        simp at he
        rw [← he]
        exact generate_level_run_err g w l e2 (by rw [hl])

theorem generate_tiles_true_eq (g : DeepZoomGenerator)
    (h : 0 < max g.width g.height) :
    g.generate_tiles true =
      ((List.range (clog2 (max g.width g.height) + 1)).flatMap
         (fun l => (g.generate_level_run true l).1) ++
       [g.generate_dzi_descriptor], none) := by
  unfold DeepZoomGenerator.generate_tiles
  rw [get_num_levels_eq g h]
  simp [generate_tiles_loop_ok g h]

theorem generate_tiles_false_eq (g : DeepZoomGenerator) (lw lh : Nat)
    (h : 0 < max g.width g.height)
    (hd : g.get_scale_dimensions 0 = some (lw, lh)) :
    g.generate_tiles false =
      ([Event.resize g.img lw lh,
        Event.reportLevel 0 lw lh (ceil_div lw g.tile_size)
          (ceil_div lh g.tile_size)], some BuildError.osError) := by
  have h2 : g.generate_tiles_loop false
      (List.range (clog2 (max g.width g.height) + 1)) =
      ([Event.resize g.img lw lh,
        Event.reportLevel 0 lw lh (ceil_div lw g.tile_size)
          (ceil_div lh g.tile_size)], some BuildError.osError) := by
    rw [List.range_succ_eq_map]
    unfold DeepZoomGenerator.generate_tiles_loop
    rw [generate_level_run_false g 0 lw lh hd]
  unfold DeepZoomGenerator.generate_tiles
  rw [get_num_levels_eq g h]
  simp [h2]

theorem generate_tiles_err (g : DeepZoomGenerator) (w : Bool) (e : BuildError)
    (he : (g.generate_tiles w).2 = some e) :
    e = BuildError.mathDomainError ∨ e = BuildError.osError := by
  unfold DeepZoomGenerator.generate_tiles at he
  split at he
  · simp at he; exact Or.inl he.symm
  · next n hn =>
    cases hl : g.generate_tiles_loop w (List.range n) with
    | mk tr oe =>
      rw [hl] at he
      cases oe with
      | none => simp at he
      | some e2 =>
        simp at he
        rw [← he]
        exact generate_tiles_loop_err g w (List.range n) e2 (by rw [hl])

/-! ### The claims -/

/-- C1: for every source raster with positive width and height, the planner's
level count equals `ceil(log2(max(sourceWidth, sourceHeight))) + 1` — stated
via the defining property of the ceiling logarithm: `numLevels - 1` is the
least `k` with `max(w, h) ≤ 2 ^ k` — and in particular the level count is 15
for a 16000×16000 source, 1 for a 1×1 source, and 9 for a 255×1 source. -/
theorem claim_C1_level_count (g : DeepZoomGenerator)
    (hw : 0 < g.width) (hh : 0 < g.height) :
    (∃ L, g.get_num_levels = some L ∧
      max g.width g.height ≤ 2 ^ (L - 1) ∧
      (∀ k, max g.width g.height ≤ 2 ^ k → L - 1 ≤ k)) ∧
    sampleBig.get_num_levels = some 15 ∧
    sampleTiny.get_num_levels = some 1 ∧
    sampleWide.get_num_levels = some 9 := by
  have hpos : 0 < max g.width g.height := by omega
  refine ⟨⟨clog2 (max g.width g.height) + 1, get_num_levels_eq g hpos, ?_, ?_⟩,
    by decide, by decide, by decide⟩
  · simpa using le_pow_clog2 (show 1 ≤ max g.width g.height by omega)
  · intro k hk
    have := clog2_min hk
    omega

theorem claim_C1_witness :
    (0 < sampleScene.width ∧ 0 < sampleScene.height) ∧
    ((∃ L, sampleScene.get_num_levels = some L ∧
      max sampleScene.width sampleScene.height ≤ 2 ^ (L - 1) ∧
      (∀ k, max sampleScene.width sampleScene.height ≤ 2 ^ k → L - 1 ≤ k)) ∧
    sampleBig.get_num_levels = some 15 ∧
    sampleTiny.get_num_levels = some 1 ∧
    sampleWide.get_num_levels = some 9) :=
  ⟨⟨by decide, by decide⟩,
   claim_C1_level_count sampleScene (by decide) (by decide)⟩

/-- C2: for every source raster with positive width and height, level
`numLevels - 1` has exactly the source dimensions, and level dimensions are
component-wise monotonically non-decreasing in the level index. -/
theorem claim_C2_plan_invariants (g : DeepZoomGenerator)
    (hw : 0 < g.width) (hh : 0 < g.height) :
    ∃ L, g.get_num_levels = some L ∧
      g.get_scale_dimensions (L - 1) = some (g.width, g.height) ∧
      (∀ i j, i ≤ j → j < L →
        ∀ wi hi wj hj, g.get_scale_dimensions i = some (wi, hi) →
          g.get_scale_dimensions j = some (wj, hj) → wi ≤ wj ∧ hi ≤ hj) := by
  have hpos : 0 < max g.width g.height := by omega
  refine ⟨clog2 (max g.width g.height) + 1, get_num_levels_eq g hpos, ?_, ?_⟩
  · rw [get_scale_dimensions_eq g hpos]
    simp [Nat.add_sub_cancel, Nat.sub_self, ceil_div_one]
  · intro i j hij hj wi hi wj hj2 hdi hdj
    rw [get_scale_dimensions_eq g hpos] at hdi hdj
    simp only [Option.some.injEq, Prod.mk.injEq] at hdi hdj
    obtain ⟨hdi1, hdi2⟩ := hdi
    obtain ⟨hdj1, hdj2⟩ := hdj
    subst hdi1 hdi2 hdj1 hdj2
    have hmono : 2 ^ (clog2 (max g.width g.height) - j) ≤
        2 ^ (clog2 (max g.width g.height) - i) :=
      Nat.pow_le_pow_right (by omega) (Nat.sub_le_sub_left hij _)
    exact ⟨ceil_div_anti g.width (Nat.two_pow_pos _) hmono,
           ceil_div_anti g.height (Nat.two_pow_pos _) hmono⟩

theorem claim_C2_witness :
    (0 < sampleScene.width ∧ 0 < sampleScene.height) ∧
    (∃ L, sampleScene.get_num_levels = some L ∧
      sampleScene.get_scale_dimensions (L - 1) =
        some (sampleScene.width, sampleScene.height) ∧
      (∀ i j, i ≤ j → j < L →
        ∀ wi hi wj hj, sampleScene.get_scale_dimensions i = some (wi, hi) →
          sampleScene.get_scale_dimensions j = some (wj, hj) →
          wi ≤ wj ∧ hi ≤ hj)) :=
  ⟨⟨by decide, by decide⟩,
   claim_C2_plan_invariants sampleScene (by decide) (by decide)⟩

/-- C3: every tile's crop box lies inside `[0, levelWidth] × [0, levelHeight]`
(including edge tiles), and an interior tile (one where no clamping applies)
is exactly `tileSize + 2·overlap` pixels wide and tall. -/
theorem claim_C3_crop_box (tile_size overlap level_width level_height col row : Nat)
    (hts : 1 ≤ tile_size)
    (hcol : col < ceil_div level_width tile_size)
    (hrow : row < ceil_div level_height tile_size) :
    (0 ≤ (save_tile_box tile_size overlap level_width level_height col row).x1 ∧
     0 ≤ (save_tile_box tile_size overlap level_width level_height col row).y1 ∧
     (save_tile_box tile_size overlap level_width level_height col row).x2 ≤
       level_width ∧
     (save_tile_box tile_size overlap level_width level_height col row).y2 ≤
       level_height) ∧
    (interior_tile tile_size overlap level_width level_height col row →
      (save_tile_box tile_size overlap level_width level_height col row).x2 -
        (save_tile_box tile_size overlap level_width level_height col row).x1 =
        tile_size + 2 * overlap ∧
      (save_tile_box tile_size overlap level_width level_height col row).y2 -
        (save_tile_box tile_size overlap level_width level_height col row).y1 =
        tile_size + 2 * overlap) := by
  have hx : ((col : Int) * (tile_size : Int)) = ((col * tile_size : Nat) : Int) := by
    push_cast; ring
  have hy : ((row : Int) * (tile_size : Int)) = ((row * tile_size : Nat) : Int) := by
    push_cast; ring
  unfold interior_tile
  rw [save_tile_box_x1, save_tile_box_y1, save_tile_box_x2, save_tile_box_y2,
    hx, hy]
  constructor
  · refine ⟨?_, ?_, ?_, ?_⟩ <;> omega
  · intro hint
    constructor <;> omega

theorem claim_C3_witness :
    (1 ≤ 256 ∧ 1 < ceil_div 1000 256 ∧ 1 < ceil_div 600 256) ∧
    ((0 ≤ (save_tile_box 256 1 1000 600 1 1).x1 ∧
      0 ≤ (save_tile_box 256 1 1000 600 1 1).y1 ∧
      (save_tile_box 256 1 1000 600 1 1).x2 ≤ 1000 ∧
      (save_tile_box 256 1 1000 600 1 1).y2 ≤ 600) ∧
     (interior_tile 256 1 1000 600 1 1 →
       (save_tile_box 256 1 1000 600 1 1).x2 -
         (save_tile_box 256 1 1000 600 1 1).x1 = 256 + 2 * 1 ∧
       (save_tile_box 256 1 1000 600 1 1).y2 -
         (save_tile_box 256 1 1000 600 1 1).y1 = 256 + 2 * 1)) :=
  ⟨⟨by decide, by decide, by decide⟩,
   claim_C3_crop_box 256 1 1000 600 1 1 (by decide) (by decide) (by decide)⟩

/-- C4: for every level raster, the slicer emits the save of tile `(col, row)`
at path `{outputRoot}/{level}/{col}_{row}.{ext}` exactly once for every pair
in `[0, cols) × [0, rows)` and emits nothing else; in the 1000×600 top-level
scenario with `tileSize = 256` this is exactly 4·3 = 12 tiles, and tile
`(3, 2)` is cropped to `x2 = 1000`, `y2 = 600`. -/
theorem claim_C4_slicer_coverage (g : DeepZoomGenerator) (level lw lh : Nat)
    (hts : 1 ≤ g.tile_size) :
    (∀ col row,
      (g.save_tile_events level lw lh).count
        (Event.saveTile (tile_path g.output_dir level col row g.image_format)
          level col row) =
        if col < ceil_div lw g.tile_size ∧ row < ceil_div lh g.tile_size
        then 1 else 0) ∧
    (∀ e ∈ g.save_tile_events level lw lh, ∃ col row,
      col < ceil_div lw g.tile_size ∧ row < ceil_div lh g.tile_size ∧
      e = Event.saveTile (tile_path g.output_dir level col row g.image_format)
        level col row) ∧
    ceil_div 1000 256 = 4 ∧ ceil_div 600 256 = 3 ∧
    (sampleScene.save_tile_events 10 1000 600).length = 12 ∧
    (save_tile_box 256 1 1000 600 3 2).x2 = 1000 ∧
    (save_tile_box 256 1 1000 600 3 2).y2 = 600 :=
  ⟨fun col row => count_save_tile_events g level lw lh col row,
   fun _ he => mem_save_tile_events he,
   by decide, by decide, by decide, by decide, by decide⟩

theorem claim_C4_witness :
    1 ≤ sampleScene.tile_size ∧
    ((∀ col row,
      (sampleScene.save_tile_events 10 1000 600).count
        (Event.saveTile
          (tile_path sampleScene.output_dir 10 col row sampleScene.image_format)
          10 col row) =
        if col < ceil_div 1000 sampleScene.tile_size ∧
           row < ceil_div 600 sampleScene.tile_size
        then 1 else 0) ∧
    (∀ e ∈ sampleScene.save_tile_events 10 1000 600, ∃ col row,
      col < ceil_div 1000 sampleScene.tile_size ∧
      row < ceil_div 600 sampleScene.tile_size ∧
      e = Event.saveTile
        (tile_path sampleScene.output_dir 10 col row sampleScene.image_format)
        10 col row) ∧
    ceil_div 1000 256 = 4 ∧ ceil_div 600 256 = 3 ∧
    (sampleScene.save_tile_events 10 1000 600).length = 12 ∧
    (save_tile_box 256 1 1000 600 3 2).x2 = 1000 ∧
    (save_tile_box 256 1 1000 600 3 2).y2 = 600) :=
  ⟨by decide, claim_C4_slicer_coverage sampleScene 10 1000 600 (by decide)⟩

/-- C5: in a successful build, every resample reads the original source
raster — never a previously produced level — and resamples it to exactly the
planned dimensions of some level; conversely every level gets such a
resample.  The embedding is purely functional, matching the code: `self.img`
is assigned once in `__init__` and `PIL.Image.resize` returns a fresh raster
without mutating its receiver, so the source raster is left unchanged. -/
theorem claim_C5_resample_from_original (g : DeepZoomGenerator)
    (hw : 0 < g.width) (hh : 0 < g.height)
    (himg : g.img = Raster.original) :
    ∃ L, g.get_num_levels = some L ∧
      (∀ src w h, Event.resize src w h ∈ (g.generate_tiles true).1 →
        src = Raster.original ∧
        ∃ level, level < L ∧ g.get_scale_dimensions level = some (w, h)) ∧
      (∀ level, level < L →
        ∀ lw lh, g.get_scale_dimensions level = some (lw, lh) →
          Event.resize Raster.original lw lh ∈ (g.generate_tiles true).1) := by
  have hpos : 0 < max g.width g.height := by omega
  refine ⟨clog2 (max g.width g.height) + 1, get_num_levels_eq g hpos, ?_, ?_⟩
  · intro src w h he
    rw [generate_tiles_true_eq g hpos] at he
    rcases List.mem_append.mp he with hbody | hdesc
    · obtain ⟨l, hl, hmem⟩ := List.mem_flatMap.mp hbody
      rw [generate_level_run_true g l _ _ (get_scale_dimensions_eq g hpos l)]
        at hmem
      simp only [List.mem_cons] at hmem
      rcases hmem with h0 | h0 | h0 | h0
      · obtain ⟨hsrc, hw2, hh2⟩ := Event.resize.inj h0
        refine ⟨hsrc.trans himg, l, List.mem_range.mp hl, ?_⟩
        rw [get_scale_dimensions_eq g hpos l, hw2, hh2]
      · exact absurd h0 (by simp)
      · exact absurd h0 (by simp)
      · obtain ⟨c, r, _, _, hform⟩ := mem_save_tile_events h0
        exact absurd hform (by simp)
    · simp only [List.mem_singleton] at hdesc
      exact absurd hdesc (by simp [DeepZoomGenerator.generate_dzi_descriptor])
  · intro level hlevel lw lh hd
    rw [get_scale_dimensions_eq g hpos level] at hd
    simp only [Option.some.injEq, Prod.mk.injEq] at hd
    obtain ⟨hd1, hd2⟩ := hd
    rw [generate_tiles_true_eq g hpos]
    refine List.mem_append_left _ (List.mem_flatMap.mpr
      ⟨level, List.mem_range.mpr hlevel, ?_⟩)
    rw [generate_level_run_true g level _ _ (get_scale_dimensions_eq g hpos level)]
    rw [← himg, hd1, hd2]
    exact List.mem_cons_self _ _

theorem claim_C5_witness :
    (0 < sampleScene.width ∧ 0 < sampleScene.height ∧
     sampleScene.img = Raster.original) ∧
    (∃ L, sampleScene.get_num_levels = some L ∧
      (∀ src w h, Event.resize src w h ∈ (sampleScene.generate_tiles true).1 →
        src = Raster.original ∧
        ∃ level, level < L ∧
          sampleScene.get_scale_dimensions level = some (w, h)) ∧
      (∀ level, level < L →
        ∀ lw lh, sampleScene.get_scale_dimensions level = some (lw, lh) →
          Event.resize Raster.original lw lh ∈
            (sampleScene.generate_tiles true).1)) :=
  ⟨⟨by decide, by decide, by decide⟩,
   claim_C5_resample_from_original sampleScene (by decide) (by decide)
     (by decide)⟩

/-- C6: a successful build processes levels 0 … numLevels-1 strictly in
increasing order — each level's trace is rasterization, then the progress
report, then directory creation and tile slicing, all emitted before the next
level starts — and the descriptor write appears exactly once, as the last
event, strictly after every tile of every level. -/
theorem claim_C6_orchestration (g : DeepZoomGenerator)
    (hw : 0 < g.width) (hh : 0 < g.height) :
    ∃ L, g.get_num_levels = some L ∧
      g.generate_tiles true =
        ((List.range L).flatMap (fun l => (g.generate_level_run true l).1) ++
         [Event.writeDescriptor (dzi_path g.output_dir) g.dzi_record], none) ∧
      (∀ l, l < L → ∃ lw lh,
        g.get_scale_dimensions l = some (lw, lh) ∧
        g.generate_level_run true l =
          (Event.resize g.img lw lh ::
           Event.reportLevel l lw lh (ceil_div lw g.tile_size)
             (ceil_div lh g.tile_size) ::
           Event.mkdirs (g.output_dir ++ r"/" ++ Nat.repr l) ::
           g.save_tile_events l lw lh, none) ∧
        (∀ e ∈ g.save_tile_events l lw lh, ∃ p c r,
          e = Event.saveTile p l c r)) ∧
      (∀ e ∈ (List.range L).flatMap (fun l => (g.generate_level_run true l).1),
        ∀ p d, e ≠ Event.writeDescriptor p d) := by
  have hpos : 0 < max g.width g.height := by omega
  refine ⟨clog2 (max g.width g.height) + 1, get_num_levels_eq g hpos,
    generate_tiles_true_eq g hpos, ?_, ?_⟩
  · intro l hl
    refine ⟨_, _, get_scale_dimensions_eq g hpos l,
      generate_level_run_true g l _ _ (get_scale_dimensions_eq g hpos l), ?_⟩
    intro e he
    obtain ⟨c, r, _, _, hform⟩ := mem_save_tile_events he
    exact ⟨_, c, r, hform⟩
  · intro e he p d
    obtain ⟨l, _, hmem⟩ := List.mem_flatMap.mp he
    rw [generate_level_run_true g l _ _ (get_scale_dimensions_eq g hpos l)]
      at hmem
    simp only [List.mem_cons] at hmem
    rcases hmem with h0 | h0 | h0 | h0
    · rw [h0]; simp
    · rw [h0]; simp
    · rw [h0]; simp
    · obtain ⟨c, r, _, _, hform⟩ := mem_save_tile_events h0
      rw [hform]; simp

theorem claim_C6_witness :
    (0 < sampleScene.width ∧ 0 < sampleScene.height) ∧
    (∃ L, sampleScene.get_num_levels = some L ∧
      sampleScene.generate_tiles true =
        ((List.range L).flatMap
           (fun l => (sampleScene.generate_level_run true l).1) ++
         [Event.writeDescriptor (dzi_path sampleScene.output_dir)
            sampleScene.dzi_record], none) ∧
      (∀ l, l < L → ∃ lw lh,
        sampleScene.get_scale_dimensions l = some (lw, lh) ∧
        sampleScene.generate_level_run true l =
          (Event.resize sampleScene.img lw lh ::
           Event.reportLevel l lw lh (ceil_div lw sampleScene.tile_size)
             (ceil_div lh sampleScene.tile_size) ::
           Event.mkdirs (sampleScene.output_dir ++ r"/" ++ Nat.repr l) ::
           sampleScene.save_tile_events l lw lh, none) ∧
        (∀ e ∈ sampleScene.save_tile_events l lw lh, ∃ p c r,
          e = Event.saveTile p l c r)) ∧
      (∀ e ∈ (List.range L).flatMap
          (fun l => (sampleScene.generate_level_run true l).1),
        ∀ p d, e ≠ Event.writeDescriptor p d)) :=
  ⟨⟨by decide, by decide⟩,
   claim_C6_orchestration sampleScene (by decide) (by decide)⟩

/-- C7: the persisted descriptor's fields exactly echo the configured tile
encoding format, tile size, overlap, and the original source dimensions —
the record interpolated into the XML is built only from the configuration,
independently of how many levels were produced. -/
theorem claim_C7_descriptor_echo (g : DeepZoomGenerator)
    (hw : 0 < g.width) (hh : 0 < g.height) :
    ∃ body, g.generate_tiles true =
        (body ++ [Event.writeDescriptor (dzi_path g.output_dir) g.dzi_record],
         none) ∧
      g.dzi_record.format = g.image_format ∧
      g.dzi_record.overlap = g.overlap ∧
      g.dzi_record.tileSize = g.tile_size ∧
      g.dzi_record.width = g.width ∧
      g.dzi_record.height = g.height := by
  have hpos : 0 < max g.width g.height := by omega
  exact ⟨_, generate_tiles_true_eq g hpos, rfl, rfl, rfl, rfl, rfl⟩

theorem claim_C7_witness :
    (0 < sampleScene.width ∧ 0 < sampleScene.height) ∧
    (∃ body, sampleScene.generate_tiles true =
        (body ++ [Event.writeDescriptor (dzi_path sampleScene.output_dir)
           sampleScene.dzi_record], none) ∧
      sampleScene.dzi_record.format = sampleScene.image_format ∧
      sampleScene.dzi_record.overlap = sampleScene.overlap ∧
      sampleScene.dzi_record.tileSize = sampleScene.tile_size ∧
      sampleScene.dzi_record.width = sampleScene.width ∧
      sampleScene.dzi_record.height = sampleScene.height) :=
  ⟨⟨by decide, by decide⟩,
   claim_C7_descriptor_echo sampleScene (by decide) (by decide)⟩

/-- C8 (amended): the code performs no dimension validation and defines no
`InvalidDimensionsError`.  A source whose dimensions are both 0 fails only
when planning itself runs: `math.log2` raises its math-domain `ValueError`
inside `get_num_levels`; and no error the build ever surfaces is a dedicated
invalid-dimensions error. -/
theorem claim_C8_no_dimension_validation (g : DeepZoomGenerator)
    (writable : Bool) :
    (g.width = 0 → g.height = 0 →
      g.generate_tiles writable = ([], some BuildError.mathDomainError)) ∧
    (∀ e, (g.generate_tiles writable).2 = some e →
      e ≠ BuildError.invalidDimensions) := by
  constructor
  · intro hw hh
    have hn : g.get_num_levels = none := by
      simp [DeepZoomGenerator.get_num_levels, hw, hh]
    unfold DeepZoomGenerator.generate_tiles
    rw [hn]
  · intro e he
    rcases generate_tiles_err g writable e he with h | h <;> rw [h] <;> decide

/-- C8 counterexample: for a 0×0 source the build's failure is the planner's
own math-domain error, not an `InvalidDimensionsError` raised before
planning. -/
theorem claim_C8_counterexample :
    (sampleZero.generate_tiles true).2 = some BuildError.mathDomainError ∧
    (sampleZero.generate_tiles true).2 ≠ some BuildError.invalidDimensions := by
  decide

theorem claim_C8_witness :
    (sampleZero.width = 0 ∧ sampleZero.height = 0) ∧
    sampleZero.generate_tiles true = ([], some BuildError.mathDomainError) ∧
    BuildError.mathDomainError ≠ BuildError.invalidDimensions :=
  ⟨⟨rfl, rfl⟩,
   (claim_C8_no_dimension_validation sampleZero true).1 rfl rfl,
   fun h => (claim_C8_no_dimension_validation sampleZero true).2
     BuildError.mathDomainError (by decide) h⟩

/-- C9 (amended): with an unwritable output root the build fails with the
`OSError` of the first `os.makedirs` call, during level 0 — not with a
dedicated `OutputUnavailableError` raised before any level work.  Zero tiles
are written, but the level-0 raster has already been produced: the resize and
the level report happen before the directory creation fails. -/
theorem claim_C9_unwritable_root (g : DeepZoomGenerator)
    (hw : 0 < g.width) (hh : 0 < g.height) :
    ∃ lw lh, g.get_scale_dimensions 0 = some (lw, lh) ∧
      g.generate_tiles false =
        ([Event.resize g.img lw lh,
          Event.reportLevel 0 lw lh (ceil_div lw g.tile_size)
            (ceil_div lh g.tile_size)], some BuildError.osError) ∧
      (∀ e ∈ (g.generate_tiles false).1, ∀ p l c r,
        e ≠ Event.saveTile p l c r) ∧
      BuildError.osError ≠ BuildError.outputUnavailable := by
  have hpos : 0 < max g.width g.height := by omega
  have hd := get_scale_dimensions_eq g hpos 0
  refine ⟨_, _, hd, generate_tiles_false_eq g _ _ hpos hd, ?_, by decide⟩
  intro e he p l c r
  rw [generate_tiles_false_eq g _ _ hpos hd] at he
  simp only [List.mem_cons, List.not_mem_nil, or_false] at he
  rcases he with h0 | h0 <;> rw [h0] <;> simp

/-- C9 counterexample: on a 1×1 source with an unwritable output root, the
trace already contains a resize (the level-0 raster was produced) and the
surfaced error is the `OSError` of `os.makedirs`, not an
`OutputUnavailableError` raised before any level is processed. -/
theorem claim_C9_counterexample :
    ((sampleTiny.generate_tiles false).1.any Event.isResize) = true ∧
    (sampleTiny.generate_tiles false).2 = some BuildError.osError ∧
    (sampleTiny.generate_tiles false).2 ≠ some BuildError.outputUnavailable := by
  decide

theorem claim_C9_witness :
    (0 < sampleTiny.width ∧ 0 < sampleTiny.height) ∧
    (∃ lw lh, sampleTiny.get_scale_dimensions 0 = some (lw, lh) ∧
      sampleTiny.generate_tiles false =
        ([Event.resize sampleTiny.img lw lh,
          Event.reportLevel 0 lw lh (ceil_div lw sampleTiny.tile_size)
            (ceil_div lh sampleTiny.tile_size)], some BuildError.osError) ∧
      (∀ e ∈ (sampleTiny.generate_tiles false).1, ∀ p l c r,
        e ≠ Event.saveTile p l c r) ∧
      BuildError.osError ≠ BuildError.outputUnavailable) :=
  ⟨⟨by decide, by decide⟩,
   claim_C9_unwritable_root sampleTiny (by decide) (by decide)⟩

/-- C10: for a source with positive dimensions and `tileSize ≥ 1`, every
level's dimensions are at least 1×1 (so the resize target is never
degenerate), its tile grid has at least one column and one row (so every
level produces at least one tile), and every in-grid tile's crop box is
non-degenerate (`x1 < x2` and `y1 < y2`). -/
theorem claim_C10_safety (g : DeepZoomGenerator)
    (hw : 0 < g.width) (hh : 0 < g.height) (hts : 1 ≤ g.tile_size) :
    ∃ L, g.get_num_levels = some L ∧
      ∀ level, level < L → ∃ lw lh,
        g.get_scale_dimensions level = some (lw, lh) ∧
        1 ≤ lw ∧ 1 ≤ lh ∧
        1 ≤ ceil_div lw g.tile_size ∧ 1 ≤ ceil_div lh g.tile_size ∧
        ∀ col row, col < ceil_div lw g.tile_size →
          row < ceil_div lh g.tile_size →
          (save_tile_box g.tile_size g.overlap lw lh col row).x1 <
            (save_tile_box g.tile_size g.overlap lw lh col row).x2 ∧
          (save_tile_box g.tile_size g.overlap lw lh col row).y1 <
            (save_tile_box g.tile_size g.overlap lw lh col row).y2 := by
  have hpos : 0 < max g.width g.height := by omega
  refine ⟨clog2 (max g.width g.height) + 1, get_num_levels_eq g hpos, ?_⟩
  intro level hlevel
  have hlw : 0 < ceil_div g.width (2 ^ (clog2 (max g.width g.height) - level)) :=
    ceil_div_pos hw (Nat.two_pow_pos _)
  have hlh : 0 < ceil_div g.height (2 ^ (clog2 (max g.width g.height) - level)) :=
    ceil_div_pos hh (Nat.two_pow_pos _)
  refine ⟨_, _, get_scale_dimensions_eq g hpos level, hlw, hlh,
    ceil_div_pos hlw (by omega), ceil_div_pos hlh (by omega), ?_⟩
  intro col row hcol hrow
  have h1 := mul_lt_of_lt_ceil_div (show 0 < g.tile_size by omega) hcol
  have h2 := mul_lt_of_lt_ceil_div (show 0 < g.tile_size by omega) hrow
  have hx : ((col : Int) * (g.tile_size : Int)) =
      ((col * g.tile_size : Nat) : Int) := by push_cast; ring
  have hy : ((row : Int) * (g.tile_size : Int)) =
      ((row * g.tile_size : Nat) : Int) := by push_cast; ring
  rw [save_tile_box_x1, save_tile_box_x2, save_tile_box_y1, save_tile_box_y2,
    hx, hy]
  constructor <;> omega

theorem claim_C10_witness :
    (0 < sampleScene.width ∧ 0 < sampleScene.height ∧
     1 ≤ sampleScene.tile_size) ∧
    (∃ L, sampleScene.get_num_levels = some L ∧
      ∀ level, level < L → ∃ lw lh,
        sampleScene.get_scale_dimensions level = some (lw, lh) ∧
        1 ≤ lw ∧ 1 ≤ lh ∧
        1 ≤ ceil_div lw sampleScene.tile_size ∧
        1 ≤ ceil_div lh sampleScene.tile_size ∧
        ∀ col row, col < ceil_div lw sampleScene.tile_size →
          row < ceil_div lh sampleScene.tile_size →
          (save_tile_box sampleScene.tile_size sampleScene.overlap lw lh
            col row).x1 <
            (save_tile_box sampleScene.tile_size sampleScene.overlap lw lh
              col row).x2 ∧
          (save_tile_box sampleScene.tile_size sampleScene.overlap lw lh
            col row).y1 <
            (save_tile_box sampleScene.tile_size sampleScene.overlap lw lh
              col row).y2) :=
  ⟨⟨by decide, by decide, by decide⟩,
   claim_C10_safety sampleScene (by decide) (by decide) (by decide)⟩
